import Mathlib

/-!
Shallow embedding of the P.I.S.A.U saw-monitoring program (`src/FYPHaykl.py`)
and proofs about it.

Modelling conventions:
* Python machine floats are modelled exactly over `ℚ` (every float literal in
  the source is an exact decimal, and no claim below depends on sub-ulp
  rounding behaviour of IEEE doubles).
* Python `int(x)` (truncation toward zero) is `pyIntQ`.
* Python `//` on nonnegative ints is `Nat` division.
* Hardware side effects are recorded in the state: the duty cycle last written
  to the PWM line is the `pwm` field, the REN enable line is `enabled`, the
  buzzer is `alarm_on`.
* The append-only event-log file is modelled as a `List Event` (most recent
  event first).
* `cv2.pointPolygonTest(zone, pt, False) >= 0` ("inside or on the boundary")
  is modelled by `insideZone`, the standard same-side-of-every-edge test,
  which agrees with it on the convex quadrilaterals produced by
  `compute_zones`.
-/

namespace FYP

/-- Python `int(q)`: truncation toward zero, `int(q.num / q.den)` in
T-division. -/
def pyIntQ (q : ℚ) : ℤ := Int.tdiv q.num q.den

/-! ### Constants of the source file -/

def MAX_RPM : ℤ := 2750
def BASELINE_TEMP : ℚ := 27
def MIN_HAND_AREA : ℚ := 3000
def MIN_MOTION_AREA : ℚ := 1000
def FRAME_WIDTH : ℕ := 640
def FRAME_HEIGHT : ℕ := 480

/-- One line of the append-only event log (`log_event`). -/
inductive Event where
  | handDetected (cx cy : ℤ)
  | motionInner (cx cy : ℤ)
  | motionOuter (cx cy : ℤ)
  | tempHigh (t : ℚ)
  | emergencyStop (p : ℤ)
deriving DecidableEq

/-! ### MotorSimulator -/

/-- State of `class MotorSimulator`, plus the externally visible hardware
lines it drives (`pwm` = duty cycle of the RPWM line, `enabled` = REN line)
and the event-log lines it appends. -/
structure MotorSimulator where
  set_speed_percent : ℤ
  set_rpm : ℤ
  current_rpm : ℤ
  temperature : ℚ
  _last_nonzero_speed : ℤ
  digitally_toggled_off : Bool
  in_emergency : Bool
  post_emergency : Bool
  original_speed_percent : ℤ
  slow_down : Bool
  enabled : Bool
  pwm : ℤ
  alarm_on : Bool
  log : List Event
deriving DecidableEq

/-- Constructor `MotorSimulator.__init__`: requested speed 0, baseline temperature, PWM
started at duty 0, REN driven HIGH, buzzer off. -/
def MotorSimulator.init : MotorSimulator :=
  { set_speed_percent := 0
    set_rpm := 0
    current_rpm := 0
    temperature := BASELINE_TEMP
    _last_nonzero_speed := 0
    digitally_toggled_off := false
    in_emergency := false
    post_emergency := false
    original_speed_percent := 0
    slow_down := false
    enabled := true
    pwm := 0
    alarm_on := false
    log := [] }

/-- Source method `MotorSimulator._sound_alarm`. -/
def MotorSimulator._sound_alarm (m : MotorSimulator) (b : Bool) : MotorSimulator :=
  { m with alarm_on := b }

/-- Source method `MotorSimulator.set_speed`: clamp to [0,100], remember the last nonzero
request, and drive the PWM line only when enabled and not in (post-)emergency,
else force duty 0. -/
def MotorSimulator.set_speed (m : MotorSimulator) (p : ℤ) : MotorSimulator :=
  let percent := max 0 (min 100 p)
  let m := { m with set_speed_percent := percent }
  let m := if percent > 0 then { m with _last_nonzero_speed := percent } else m
  if m.enabled = true ∧ m.in_emergency = false ∧ m.post_emergency = false then
    { m with pwm := percent }
  else
    { m with pwm := 0 }

/-- Source method `MotorSimulator.enable_motor`. -/
def MotorSimulator.enable_motor (m : MotorSimulator) : MotorSimulator :=
  let m := if m.enabled = false then { m with enabled := true } else m
  if m.in_emergency = false ∧ m.post_emergency = false then
    { m with pwm := m.set_speed_percent }
  else m

/-- Source method `MotorSimulator.disable_motor`. -/
def MotorSimulator.disable_motor (m : MotorSimulator) : MotorSimulator :=
  if m.enabled = true then { m with pwm := 0, enabled := false } else m

/-- Source method `MotorSimulator.toggle_digital` ("Dig Toggle"): `x or 30` in Python picks
30 exactly when `_last_nonzero_speed` is 0. -/
def MotorSimulator.toggle_digital (m : MotorSimulator) : MotorSimulator :=
  if m.set_speed_percent > 0 ∧ m.in_emergency = false ∧ m.post_emergency = false then
    let m := { m with _last_nonzero_speed := m.set_speed_percent }
    let m := m.set_speed 0
    { m with digitally_toggled_off := true }
  else
    let m :=
      if m.enabled = true ∧ m.in_emergency = false ∧ m.post_emergency = false then
        m.set_speed (if m._last_nonzero_speed ≠ 0 then m._last_nonzero_speed else 30)
      else m
    { m with digitally_toggled_off := false }

/-- Source method `MotorSimulator.enter_emergency`. -/
def MotorSimulator.enter_emergency (m : MotorSimulator) : MotorSimulator :=
  let m := { m with in_emergency := true, post_emergency := false }
  let m := m.disable_motor
  m._sound_alarm true

/-- Source method `MotorSimulator.exit_emergency`. -/
def MotorSimulator.exit_emergency (m : MotorSimulator) : MotorSimulator :=
  let m := { m with in_emergency := false, post_emergency := true }
  let m := m.disable_motor
  m._sound_alarm false

/-- Source method `MotorSimulator.complete_post_emergency`. -/
def MotorSimulator.complete_post_emergency (m : MotorSimulator) : MotorSimulator :=
  let m := { m with post_emergency := false }
  if m.enabled = true then
    m.set_speed (if m._last_nonzero_speed ≠ 0 then m._last_nonzero_speed else 30)
  else m

/-! `MotorSimulator.update(dt)`, split into its numbered steps. -/

/-- Step 1 of `update`: `set_rpm = int(set_speed_percent * MAX_RPM / 100)`. -/
def MotorSimulator.stepSetRpm (m : MotorSimulator) : MotorSimulator :=
  { m with set_rpm := pyIntQ ((m.set_speed_percent : ℚ) * (MAX_RPM : ℚ) / 100) }

/-- Step 2 of `update`: ramp `current_rpm` toward `set_rpm` by
`min(int(delta * 0.3), 100)`. -/
def MotorSimulator.stepRamp (m : MotorSimulator) : MotorSimulator :=
  if m.current_rpm < m.set_rpm then
    let delta := m.set_rpm - m.current_rpm
    { m with current_rpm := m.current_rpm + min (pyIntQ ((delta : ℚ) * 0.3)) 100 }
  else if m.current_rpm > m.set_rpm then
    let delta := m.current_rpm - m.set_rpm
    { m with current_rpm := m.current_rpm - min (pyIntQ ((delta : ℚ) * 0.3)) 100 }
  else m

/-- Step 3 of `update`: temperature rise depending on the speed band. -/
def MotorSimulator.stepHeat (m : MotorSimulator) : MotorSimulator :=
  let rate : ℚ :=
    if m.set_speed_percent > 55 then 0.15 + ((m.set_speed_percent : ℚ) / 100) * 0.2
    else if m.set_speed_percent < 40 then 0.01
    else 0.05
  { m with temperature := m.temperature + rate }

/-- Step 4 of `update`: cooling logic (note the source's unreachable
`elif set_speed_percent == 0` branch is kept as written). -/
def MotorSimulator.stepCool (m : MotorSimulator) : MotorSimulator :=
  if m.set_speed_percent ≤ 20 then { m with temperature := m.temperature - 0.03 }
  else if m.set_speed_percent = 0 then { m with temperature := m.temperature - 0.07 }
  else if m.temperature > BASELINE_TEMP + 5 then
    { m with temperature := min m.temperature (BASELINE_TEMP + 70) }
  else m

/-- Step 5 of `update`: clamp temperature to [0, 70]. -/
def MotorSimulator.stepClamp (m : MotorSimulator) : MotorSimulator :=
  let m := if m.temperature < 0 then { m with temperature := 0 } else m
  if m.temperature > 70 then { m with temperature := 70 } else m

/-- Step 6 of `update`: gradual slow-down when temperature reaches 60 °C,
logging TEMP_HIGH once per excursion and stepping the commanded speed down
toward the 20% floor through `set_speed`. -/
def MotorSimulator.stepThrottle (m : MotorSimulator) : MotorSimulator :=
  let m :=
    if 60 ≤ m.temperature ∧ m.slow_down = false then
      { m with original_speed_percent := m.set_speed_percent
               slow_down := true
               log := Event.tempHigh m.temperature :: m.log }
    else m
  if m.slow_down = true then
    if 60 ≤ m.temperature then
      if m.set_speed_percent > 20 then
        let new_speed := m.set_speed_percent - 1
        let new_speed := if new_speed < 20 then 20 else new_speed
        m.set_speed new_speed
      else m
    else { m with slow_down := false }
  else m

/-- Step 7 of `update`: slight fluctuation when the motor is off and the
temperature is within 0.01 of baseline; `r` is the value drawn from
`np.random.uniform(-1, 1)`. -/
def MotorSimulator.stepFluct (m : MotorSimulator) (r : ℚ) : MotorSimulator :=
  if m.slow_down = false ∧ m.set_speed_percent = 0 ∧
      |m.temperature - BASELINE_TEMP| < 0.01 then
    { m with temperature := BASELINE_TEMP + r }
  else m

/-- Source method `MotorSimulator.update(dt)` (the 0.5 s tick); `r` is this tick's random
fluctuation draw. -/
def MotorSimulator.update (m : MotorSimulator) (r : ℚ) : MotorSimulator :=
  (((((m.stepSetRpm).stepRamp).stepHeat).stepCool).stepClamp).stepThrottle.stepFluct r

/-! ### Command traces over the motor -/

/-- One call into the `MotorSimulator` API. -/
inductive MotorOp where
  | setSpeed (p : ℤ)
  | update (r : ℚ)
  | enableMotor
  | disableMotor
  | toggleDigital
  | enterEmergency
  | exitEmergency
  | completePostEmergency
deriving DecidableEq

def MotorSimulator.applyOp (m : MotorSimulator) : MotorOp → MotorSimulator
  | .setSpeed p => m.set_speed p
  | .update r => m.update r
  | .enableMotor => m.enable_motor
  | .disableMotor => m.disable_motor
  | .toggleDigital => m.toggle_digital
  | .enterEmergency => m.enter_emergency
  | .exitEmergency => m.exit_emergency
  | .completePostEmergency => m.complete_post_emergency

def MotorSimulator.run (m : MotorSimulator) (ops : List MotorOp) : MotorSimulator :=
  ops.foldl MotorSimulator.applyOp m

/-! ### The status-bar tick and the UI / Blynk command handlers -/

/-- The motor-switch section (part B) of `LiveViewScreen.update_status_bar`,
run once per second.  `switchOn` is this tick's polled switch level; the
source keeps no previous level anywhere.  Sections A (Pi shutdown switch) and
C (clock / WiFi / telemetry writes) are external I/O and are not part of the
motor state transition. -/
def update_status_bar (switchOn : Bool) (m : MotorSimulator) : MotorSimulator × String :=
  if switchOn = false then
    (m.disable_motor, "Status: Motor Switch Off")
  else if m.post_emergency = true then
    (m.complete_post_emergency, "Status: Ready")
  else if m.in_emergency = false then
    (m.enable_motor, "Status: Ready")
  else
    (m, "Status: Emergency")

/-- The pieces of `LiveViewScreen` state the command handlers consult:
the polled motor-switch level, whether the Hold-To-Start confirmation has
completed (`start_confirmed`), the motor, and any popup raised. -/
structure UIState where
  motor : MotorSimulator
  switchOn : Bool
  start_confirmed : Bool
  popup : Option String
deriving DecidableEq

/-- Source method `LiveViewScreen.on_speed_button` (Slow/Medium/Fast presets): requires the
switch on, no (post-)emergency, and the hold-to-start confirmation. -/
def on_speed_button (s : UIState) (percent : ℤ) : UIState :=
  if s.switchOn = false then
    { s with popup := some "Please Turn On The Motor Switch" }
  else if s.motor.post_emergency = true ∨ s.motor.in_emergency = true then s
  else if s.start_confirmed = false then
    { s with popup := some "Hold the Hold To Start button to begin" }
  else
    { s with motor := s.motor.set_speed percent }

/-- Source method `LiveViewScreen.on_dig_toggle`: same guards as the presets. -/
def on_dig_toggle (s : UIState) : UIState :=
  if s.switchOn = false then
    { s with popup := some "Please Turn On The Motor Switch" }
  else if s.motor.post_emergency = true ∨ s.motor.in_emergency = true then s
  else if s.start_confirmed = false then
    { s with popup := some "Hold the Hold To Start button to begin" }
  else
    { s with motor := s.motor.toggle_digital }

/-- Blynk `@blynk.on("V5")` `handle_speed_slider`: checks the switch and the
emergency flags, then sets the speed DIRECTLY, bypassing `start_confirmed`
(as the source's own comments say). -/
def handle_speed_slider (s : UIState) (value : List ℤ) : UIState :=
  match value with
  | [] => s
  | v :: _ =>
    let percent := v
    if s.switchOn = false then
      { s with popup := some "Please Turn On The Motor Switch" }
    else if s.motor.in_emergency = true ∨ s.motor.post_emergency = true then s
    else
      { s with motor := s.motor.set_speed percent }

/-- Blynk `@blynk.on("V4")` `handle_dig_toggle`: same switch/emergency gates,
no `start_confirmed` gate. -/
def handle_dig_toggle (s : UIState) (value : List ℤ) : UIState :=
  match value with
  | [] => s
  | v :: _ =>
    if v ≠ 1 then s
    else if s.switchOn = false then
      { s with popup := some "Please Turn On The Motor Switch" }
    else if s.motor.in_emergency = true ∨ s.motor.post_emergency = true then s
    else
      { s with motor := s.motor.toggle_digital }

/-! ### Zone geometry -/

/-- The six zone parameters of `LiveViewScreen` (settings sliders:
Outer Width 100–600, Outer Height 100–400, Inner Width 50–400,
Inner Height 50–400, Offset X/Y −200–200). -/
structure ZoneParams where
  outer_width : ℤ
  outer_height : ℤ
  inner_width : ℤ
  inner_height : ℤ
  zone_offset_x : ℤ
  zone_offset_y : ℤ
deriving DecidableEq

/-- Default zone parameters set in `LiveViewScreen.__init__`. -/
def defaultZoneParams : ZoneParams :=
  { outer_width := 400
    outer_height := 300
    inner_width := 200
    inner_height := 200
    zone_offset_x := 0
    zone_offset_y := 0 }

/-- A 4-point polygon, in the vertex order the source builds its
`np.array`s: top-left, top-right, bottom-right, bottom-left. -/
structure Quad where
  p1 : ℤ × ℤ
  p2 : ℤ × ℤ
  p3 : ℤ × ℤ
  p4 : ℤ × ℤ
deriving DecidableEq

/-- Source method `LiveViewScreen.compute_zones(frame_width, frame_height)`, returning
(`outer_zone`, `inner_zone`). -/
def compute_zones (frame_width frame_height : ℕ) (p : ZoneParams) : Quad × Quad :=
  let cx : ℤ := (frame_width / 2 : ℕ) + p.zone_offset_x
  let cy : ℤ := (frame_height / 2 : ℕ) + p.zone_offset_y
  let top_left := (pyIntQ ((cx : ℚ) - (p.outer_width : ℚ) / 2),
                   pyIntQ ((cy : ℚ) + (p.outer_height : ℚ) / 2))
  let top_right := (pyIntQ ((cx : ℚ) + (p.outer_width : ℚ) / 2),
                    pyIntQ ((cy : ℚ) + (p.outer_height : ℚ) / 2))
  let bottom_left := (pyIntQ ((cx : ℚ) - (p.outer_width : ℚ) / 4),
                      pyIntQ ((cy : ℚ) - (p.outer_height : ℚ) / 2))
  let bottom_right := (pyIntQ ((cx : ℚ) + (p.outer_width : ℚ) / 4),
                       pyIntQ ((cy : ℚ) - (p.outer_height : ℚ) / 2))
  let outer : Quad := ⟨top_left, top_right, bottom_right, bottom_left⟩
  let inner_top_left := (pyIntQ ((cx : ℚ) - (p.inner_width : ℚ) / 2),
                         pyIntQ ((cy : ℚ) + (p.inner_height : ℚ) / 2))
  let inner_top_right := (pyIntQ ((cx : ℚ) + (p.inner_width : ℚ) / 2),
                          pyIntQ ((cy : ℚ) + (p.inner_height : ℚ) / 2))
  let inner_bottom_left := (pyIntQ ((cx : ℚ) - (p.inner_width : ℚ) / 4),
                            pyIntQ ((cy : ℚ) - (p.inner_height : ℚ) / 2))
  let inner_bottom_right := (pyIntQ ((cx : ℚ) + (p.inner_width : ℚ) / 4),
                             pyIntQ ((cy : ℚ) - (p.inner_height : ℚ) / 2))
  let inner : Quad := ⟨inner_top_left, inner_top_right, inner_bottom_right, inner_bottom_left⟩
  (outer, inner)

/-- Twice the (shoelace) area of a 4-point polygon. -/
def Quad.area2 (q : Quad) : ℤ :=
  |q.p1.1 * q.p2.2 - q.p2.1 * q.p1.2 + (q.p2.1 * q.p3.2 - q.p3.1 * q.p2.2)
    + (q.p3.1 * q.p4.2 - q.p4.1 * q.p3.2) + (q.p4.1 * q.p1.2 - q.p1.1 * q.p4.2)|

def Quad.minX (q : Quad) : ℤ := min (min q.p1.1 q.p2.1) (min q.p3.1 q.p4.1)

def Quad.maxX (q : Quad) : ℤ := max (max q.p1.1 q.p2.1) (max q.p3.1 q.p4.1)

def Quad.minY (q : Quad) : ℤ := min (min q.p1.2 q.p2.2) (min q.p3.2 q.p4.2)

def Quad.maxY (q : Quad) : ℤ := max (max q.p1.2 q.p2.2) (max q.p3.2 q.p4.2)

/-- The axis-aligned bounding box of `qin` lies inside that of `qout`. -/
abbrev bboxInside (qin qout : Quad) : Prop :=
  qout.minX ≤ qin.minX ∧ qin.maxX ≤ qout.maxX ∧
    qout.minY ≤ qin.minY ∧ qin.maxY ≤ qout.maxY

/-! ### Detection pipeline (`LiveViewScreen.update_frame`) -/

/-- Cross product used for the same-side point-in-convex-polygon test. -/
def crossP (o a b : ℤ × ℤ) : ℤ :=
  (a.1 - o.1) * (b.2 - o.2) - (a.2 - o.2) * (b.1 - o.1)

/-- Test `cv2.pointPolygonTest(q, pt, False) >= 0` for the convex quadrilaterals
produced by `compute_zones`: the point is on the same (weak) side of all four
edges. -/
def insideZone (q : Quad) (pt : ℤ × ℤ) : Bool :=
  (decide (0 ≤ crossP q.p1 q.p2 pt) && decide (0 ≤ crossP q.p2 q.p3 pt) &&
     decide (0 ≤ crossP q.p3 q.p4 pt) && decide (0 ≤ crossP q.p4 q.p1 pt)) ||
  (decide (crossP q.p1 q.p2 pt ≤ 0) && decide (crossP q.p2 q.p3 pt ≤ 0) &&
     decide (crossP q.p3 q.p4 pt ≤ 0) && decide (crossP q.p4 q.p1 pt ≤ 0))

/-- A skin-mask contour as the hand-detection loop sees it:
`cv2.contourArea` and the moments used for the centroid. -/
structure Contour where
  area : ℚ
  m00 : ℚ
  m10 : ℚ
  m01 : ℚ
deriving DecidableEq

/-- The hand-detection loop of `update_frame`: skip contours below
`MIN_HAND_AREA` or with zero `m00`; stop at the first whose centroid
`(int(m10/m00), int(m01/m00))` lies in the inner zone. -/
def findHand (inner : Quad) : List Contour → Option (ℤ × ℤ)
  | [] => none
  | c :: rest =>
    if c.area < MIN_HAND_AREA then findHand inner rest
    else if c.m00 = 0 then findHand inner rest
    else
      let cx := pyIntQ (c.m10 / c.m00)
      let cy := pyIntQ (c.m01 / c.m00)
      if insideZone inner (cx, cy) = true then some (cx, cy) else findHand inner rest

/-- A motion contour on the 320×240 downscaled frame: `cv2.contourArea` and
`cv2.boundingRect` output (all nonnegative). -/
structure MotionContour where
  area : ℚ
  x : ℕ
  y : ℕ
  w : ℕ
  h : ℕ
deriving DecidableEq

/-- The scaled threshold `MIN_MOTION_AREA * (320 * 240) / (640 * 480)`. -/
def scaled_min_area : ℚ := MIN_MOTION_AREA * (320 * 240) / (640 * 480)

/-- The motion-classification loop of `update_frame`: skip contours below the
scaled area threshold; scale the bounding box back to full resolution,
take its center, and classify against the inner then the outer zone,
breaking on the first match.  Returns `some (true, cx, cy)` for an
inner-zone match, `some (false, cx, cy)` for an outer-zone match. -/
def classifyMotion (inner outer : Quad) : List MotionContour → Option (Bool × ℤ × ℤ)
  | [] => none
  | c :: rest =>
    if c.area < scaled_min_area then classifyMotion inner outer rest
    else
      let x := c.x * 2
      let y := c.y * 2
      let w := c.w * 2
      let h := c.h * 2
      let cx : ℤ := (x + w / 2 : ℕ)
      let cy : ℤ := (y + h / 2 : ℕ)
      if insideZone inner (cx, cy) = true then some (true, cx, cy)
      else if insideZone outer (cx, cy) = true then some (false, cx, cy)
      else classifyMotion inner outer rest

/-- The per-tick mutable state `update_frame` reads and writes. -/
structure FrameTickState where
  warning_text : String
  last_motion_time : ℚ
  prev_frame : Option ℕ
  frame_toggle : Bool
  flash_event : Bool
  flash_counter : ℤ
  status_text : String
  log : List Event
deriving DecidableEq

/-- The inputs one camera tick draws from the outside world: whether
`capture.read()` succeeded, the skin contours of the frame, the motion
contours of the frame difference, an identifier for this tick's blurred
downscaled frame, and the current wall-clock time. -/
structure TickInput where
  captured : Bool
  skin_contours : List Contour
  motion_contours : List MotionContour
  blur_small : ℕ
  now : ℚ
deriving DecidableEq

/-- The status-label update at the end of `update_frame`. -/
def setStatusLabel (warning_duration now : ℚ) (s : FrameTickState) : FrameTickState :=
  if now - s.last_motion_time ≤ warning_duration then
    { s with status_text := s.warning_text }
  else
    { s with status_text := "Cutting Board is Clear" }

/-- Source method `LiveViewScreen.update_frame` (15 Hz camera tick): early-out on emergency
or failed capture, recompute zones, toggle the frame-skip flag, then on
full-process ticks run hand detection first and motion detection only when no
hand was found; finally refresh the status label (except on the
first-motion-frame early return). -/
def update_frame (fw fh : ℕ) (zp : ZoneParams) (warning_duration : ℚ)
    (in_emergency : Bool) (inp : TickInput) (s : FrameTickState) : FrameTickState :=
  if in_emergency = true then s
  else if inp.captured = false then s
  else
    let zones := compute_zones fw fh zp
    let outer := zones.1
    let inner := zones.2
    let s := { s with frame_toggle := !s.frame_toggle }
    if s.frame_toggle = true then
      match findHand inner inp.skin_contours with
      | some (cx, cy) =>
        let s := if s.flash_event = true then s
                 else { s with flash_counter := 6, flash_event := true }
        let s := { s with
          warning_text := "[color=ff0]WARNING: HAND DETECTED IN CUTTING AREA[/color]"
          last_motion_time := inp.now
          log := Event.handDetected cx cy :: s.log }
        setStatusLabel warning_duration inp.now s
      | none =>
        match s.prev_frame with
        | none => { s with prev_frame := some inp.blur_small }
        | some _ =>
          let s :=
            match classifyMotion inner outer inp.motion_contours with
            | some (true, cx, cy) =>
              { s with
                warning_text := "[color=ff0]Moving Item IN Cutting Board Area[/color]"
                last_motion_time := inp.now
                log := Event.motionInner cx cy :: s.log }
            | some (false, cx, cy) =>
              { s with
                warning_text := "[color=ff0]Moving Item NEAR Cutting Board Area[/color]"
                last_motion_time := inp.now
                log := Event.motionOuter cx cy :: s.log }
            | none => s
          let s := { s with prev_frame := some inp.blur_small }
          setStatusLabel warning_duration inp.now s
    else
      setStatusLabel warning_duration inp.now s

/-! ### Settings persistence (`load_settings_from_file`) -/

/-- A parsed JSON value as `json.load` can return it. -/
inductive Json where
  | null
  | bool (b : Bool)
  | num (q : ℚ)
  | str (s : String)
  | arr (xs : List Json)
  | obj (fields : List (String × Json))

/-- What reading `motion_settings.json` produced: the file was absent,
`json.load` raised `JSONDecodeError`, or it parsed to a value. -/
inductive SettingsFile where
  | missing
  | decodeError
  | parsed (j : Json)

/-- The eight persisted parameters, as the dynamically typed values Python
stores in them (they start as ints but `load_settings_from_file` performs no
validation), plus the overlay-staleness flag. -/
structure SettingsState where
  outer_width : Json
  outer_height : Json
  inner_width : Json
  inner_height : Json
  zone_offset_x : Json
  zone_offset_y : Json
  hatch_spacing : Json
  warning_duration : Json
  overlay_dirty : Bool

/-- The in-memory parameters `LiveViewScreen.__init__` sets before
`load_settings_from_file` runs. -/
def defaultSettingsState : SettingsState :=
  { outer_width := Json.num 400
    outer_height := Json.num 300
    inner_width := Json.num 200
    inner_height := Json.num 200
    zone_offset_x := Json.num 0
    zone_offset_y := Json.num 0
    hatch_spacing := Json.num 20
    warning_duration := Json.num 3
    overlay_dirty := true }

/-- Python `dict.get(k, default)`. -/
def dictGet (fields : List (String × Json)) (k : String) (dflt : Json) : Json :=
  match fields.find? (fun kv => kv.1 == k) with
  | some kv => kv.2
  | none => dflt

/-- Outcome of running a Python method: normal return or a propagated
exception (named by its class). -/
inductive PyOutcome where
  | ok (s : SettingsState)
  | raised (exc : String)

/-- Source method `LiveViewScreen.load_settings_from_file`: missing file returns early;
`json.JSONDecodeError` is caught (warning printed) and returns early; any
other parse result is used via `settings.get(...)` — which raises
`AttributeError` when the parsed value is not a dict, since only dicts have
`.get`. -/
def load_settings_from_file (st : SettingsState) (file : SettingsFile) : PyOutcome :=
  match file with
  | .missing => .ok st
  | .decodeError => .ok st
  | .parsed j =>
    match j with
    | .obj fields =>
      .ok { outer_width := dictGet fields "outer_width" st.outer_width
            outer_height := dictGet fields "outer_height" st.outer_height
            inner_width := dictGet fields "inner_width" st.inner_width
            inner_height := dictGet fields "inner_height" st.inner_height
            zone_offset_x := dictGet fields "zone_offset_x" st.zone_offset_x
            zone_offset_y := dictGet fields "zone_offset_y" st.zone_offset_y
            hatch_spacing := dictGet fields "hatch_spacing" st.hatch_spacing
            warning_duration := dictGet fields "warning_duration" st.warning_duration
            overlay_dirty := true }
    | _ => .raised "AttributeError"

/-! ### Auxiliary predicates and concrete states used by the theorems -/

/-- Speed command is within its clamped range. -/
abbrev SpeedInv (m : MotorSimulator) : Prop :=
  0 ≤ m.set_speed_percent ∧ m.set_speed_percent ≤ 100

/-- RPM is within its clamped range. -/
abbrev RpmInv (m : MotorSimulator) : Prop :=
  0 ≤ m.current_rpm ∧ m.current_rpm ≤ 2750

/-- Temperature is within its clamped range. -/
abbrev TempInv (m : MotorSimulator) : Prop :=
  0 ≤ m.temperature ∧ m.temperature ≤ 70

abbrev MotorInv (m : MotorSimulator) : Prop := SpeedInv m ∧ RpmInv m ∧ TempInv m

/-- The PWM line is never left driving while the driver is disabled — true of
every state the program can reach (`pwm.start(0)` at init, and every path
that clears `enabled` first writes duty 0). -/
abbrev PwmSafe (m : MotorSimulator) : Prop := m.enabled = false → m.pwm = 0

/-- The emergency window: the motor is in Emergency or PostEmergency and the
PWM line is at duty 0. -/
abbrev Gated (m : MotorSimulator) : Prop :=
  (m.in_emergency = true ∨ m.post_emergency = true) ∧ m.pwm = 0

/-- The operations (and random-draw bounds) quantified over by the
"any sequence of `set_speed` calls and `update` ticks" claims. -/
def SimOpOk : MotorOp → Prop
  | .setSpeed _ => True
  | .update r => -1 ≤ r ∧ r ≤ 1
  | _ => False

instance (op : MotorOp) : Decidable (SimOpOk op) := by
  cases op <;> simp only [SimOpOk] <;> infer_instance

/-- The scenario of the ramp claim: `set_speed(100)` once from the initial
state, then `n` motor ticks (the fluctuation draw never fires since the speed
stays nonzero, so it is fixed at 0). -/
def c4state (n : ℕ) : MotorSimulator :=
  (fun m => MotorSimulator.update m 0)^[n] (MotorSimulator.init.set_speed 100)

/-- A concrete PostEmergency state: the operator was running at 50%, an
emergency was triggered and acknowledged (`enter_emergency` then
`exit_emergency`), so the motor sits disabled with duty 0 awaiting the switch
protocol. -/
def postEmergencyState : MotorSimulator :=
  { MotorSimulator.init with
      set_speed_percent := 50
      _last_nonzero_speed := 50
      post_emergency := true
      enabled := false }

/-- A concrete UI state: switch on, no emergency, hold-to-start NOT yet
confirmed. -/
def c2state : UIState :=
  { motor := MotorSimulator.init
    switchOn := true
    start_confirmed := false
    popup := none }

/-- Slider-range zone parameters with the inner zone configured larger than
the outer zone. -/
def c6badParams : ZoneParams :=
  { outer_width := 100
    outer_height := 100
    inner_width := 400
    inner_height := 400
    zone_offset_x := 0
    zone_offset_y := 0 }

/-- A concrete tick input: one skin contour of exactly the hand threshold
area with centroid (320, 240) — the center of the default inner zone — plus a
large motion contour that would qualify for a motion alert. -/
def c8input : TickInput :=
  { captured := true
    skin_contours := [{ area := 3000, m00 := 1, m10 := 320, m01 := 240 }]
    motion_contours := [{ area := 300, x := 150, y := 110, w := 20, h := 20 }]
    blur_small := 7
    now := 5 }

/-- A concrete detection-tick state about to run a full-process tick. -/
def c8state0 : FrameTickState :=
  { warning_text := ""
    last_motion_time := 0
    prev_frame := some 3
    frame_toggle := false
    flash_event := false
    flash_counter := 0
    status_text := "Cutting Board is Clear"
    log := [] }

/-- Intermediate states of the ramp scenario (`c4state`), computed in
exact rational arithmetic and verified tick-by-tick below. -/

def c4s16 : MotorSimulator :=
  { set_speed_percent := 100
    set_rpm := 2750
    current_rpm := 1600
    temperature := 163/5
    _last_nonzero_speed := 100
    digitally_toggled_off := false
    in_emergency := false
    post_emergency := false
    original_speed_percent := 0
    slow_down := false
    enabled := true
    pwm := 100
    alarm_on := false
    log := [] }

def c4s32 : MotorSimulator :=
  { set_speed_percent := 100
    set_rpm := 2750
    current_rpm := 2728
    temperature := 191/5
    _last_nonzero_speed := 100
    digitally_toggled_off := false
    in_emergency := false
    post_emergency := false
    original_speed_percent := 0
    slow_down := false
    enabled := true
    pwm := 100
    alarm_on := false
    log := [] }

def c4s48 : MotorSimulator :=
  { set_speed_percent := 100
    set_rpm := 2750
    current_rpm := 2747
    temperature := 219/5
    _last_nonzero_speed := 100
    digitally_toggled_off := false
    in_emergency := false
    post_emergency := false
    original_speed_percent := 0
    slow_down := false
    enabled := true
    pwm := 100
    alarm_on := false
    log := [] }

def c4s64 : MotorSimulator :=
  { set_speed_percent := 100
    set_rpm := 2750
    current_rpm := 2747
    temperature := 247/5
    _last_nonzero_speed := 100
    digitally_toggled_off := false
    in_emergency := false
    post_emergency := false
    original_speed_percent := 0
    slow_down := false
    enabled := true
    pwm := 100
    alarm_on := false
    log := [] }

def c4s80 : MotorSimulator :=
  { set_speed_percent := 100
    set_rpm := 2750
    current_rpm := 2747
    temperature := 55
    _last_nonzero_speed := 100
    digitally_toggled_off := false
    in_emergency := false
    post_emergency := false
    original_speed_percent := 0
    slow_down := false
    enabled := true
    pwm := 100
    alarm_on := false
    log := [] }

def c4s95 : MotorSimulator :=
  { set_speed_percent := 99
    set_rpm := 2750
    current_rpm := 2747
    temperature := 241/4
    _last_nonzero_speed := 99
    digitally_toggled_off := false
    in_emergency := false
    post_emergency := false
    original_speed_percent := 100
    slow_down := true
    enabled := true
    pwm := 99
    alarm_on := false
    log := [Event.tempHigh (241/4)] }

def c4s96 : MotorSimulator :=
  { set_speed_percent := 98
    set_rpm := 2722
    current_rpm := 2740
    temperature := 30299/500
    _last_nonzero_speed := 98
    digitally_toggled_off := false
    in_emergency := false
    post_emergency := false
    original_speed_percent := 100
    slow_down := true
    enabled := true
    pwm := 98
    alarm_on := false
    log := [Event.tempHigh (241/4)] }

/-! ## Theorems -/

/- `Rat.add` and friends are `@[irreducible]` only as a simp-performance
guard; lifting that locally lets `decide` evaluate the embedded Python
arithmetic on concrete inputs. -/
attribute [local semireducible] Rat.add Rat.sub Rat.mul Rat.inv Rat.ofScientific

/-! ### Bridging `pyIntQ` with floors and integer division -/

theorem pyIntQ_eq_floor (q : ℚ) (h : 0 ≤ q) : pyIntQ q = ⌊q⌋ := by
  rw [pyIntQ, Rat.floor_def]
  exact Int.tdiv_eq_ediv (Rat.num_nonneg.mpr h) (Int.ofNat_nonneg _)

theorem pyIntQ_intCast_div_natCast (n : ℤ) (d : ℕ) (hn : 0 ≤ n) :
    pyIntQ ((n : ℚ) / (d : ℚ)) = n / (d : ℤ) := by
  have h : 0 ≤ (n : ℚ) / (d : ℚ) := by positivity
  rw [pyIntQ_eq_floor _ h, Rat.floor_intCast_div_natCast]

theorem pyIntQ_half_sub (c w : ℤ) (h : w ≤ 2 * c) :
    pyIntQ ((c : ℚ) - (w : ℚ) / 2) = (2 * c - w) / 2 := by
  have h1 : (c : ℚ) - (w : ℚ) / 2 = ((2 * c - w : ℤ) : ℚ) / ((2 : ℕ) : ℚ) := by
    push_cast
    ring
  rw [h1, pyIntQ_intCast_div_natCast _ _ (by omega)]
  norm_num

theorem pyIntQ_half_add (c w : ℤ) (h : 0 ≤ 2 * c + w) :
    pyIntQ ((c : ℚ) + (w : ℚ) / 2) = (2 * c + w) / 2 := by
  have h1 : (c : ℚ) + (w : ℚ) / 2 = ((2 * c + w : ℤ) : ℚ) / ((2 : ℕ) : ℚ) := by
    push_cast
    ring
  rw [h1, pyIntQ_intCast_div_natCast _ _ (by omega)]
  norm_num

theorem pyIntQ_quarter_sub (c w : ℤ) (h : w ≤ 4 * c) :
    pyIntQ ((c : ℚ) - (w : ℚ) / 4) = (4 * c - w) / 4 := by
  have h1 : (c : ℚ) - (w : ℚ) / 4 = ((4 * c - w : ℤ) : ℚ) / ((4 : ℕ) : ℚ) := by
    push_cast
    ring
  rw [h1, pyIntQ_intCast_div_natCast _ _ (by omega)]
  norm_num

theorem pyIntQ_quarter_add (c w : ℤ) (h : 0 ≤ 4 * c + w) :
    pyIntQ ((c : ℚ) + (w : ℚ) / 4) = (4 * c + w) / 4 := by
  have h1 : (c : ℚ) + (w : ℚ) / 4 = ((4 * c + w : ℤ) : ℚ) / ((4 : ℕ) : ℚ) := by
    push_cast
    ring
  rw [h1, pyIntQ_intCast_div_natCast _ _ (by omega)]
  norm_num

theorem pyIntQ_mul_03 (x : ℤ) (hx : 0 ≤ x) :
    pyIntQ ((x : ℚ) * 0.3) = 3 * x / 10 := by
  have h1 : (x : ℚ) * 0.3 = ((3 * x : ℤ) : ℚ) / ((10 : ℕ) : ℚ) := by
    push_cast
    norm_num
    ring
  rw [h1, pyIntQ_intCast_div_natCast _ _ (by omega)]
  norm_num

theorem pyIntQ_rpm (p : ℤ) (hp : 0 ≤ p) :
    pyIntQ ((p : ℚ) * (MAX_RPM : ℚ) / 100) = p * 2750 / 100 := by
  have h1 : (p : ℚ) * (MAX_RPM : ℚ) / 100 = ((p * 2750 : ℤ) : ℚ) / ((100 : ℕ) : ℚ) := by
    rw [MAX_RPM]
    push_cast
    ring
  rw [h1, pyIntQ_intCast_div_natCast _ _ (by omega)]
  norm_num

/-! ### Canonical forms of the motor operations -/

theorem set_speed_def (m : MotorSimulator) (p : ℤ) :
    m.set_speed p = { m with
      set_speed_percent := max 0 (min 100 p)
      _last_nonzero_speed :=
        if max 0 (min 100 p) > 0 then max 0 (min 100 p) else m._last_nonzero_speed
      pwm :=
        if m.enabled = true ∧ m.in_emergency = false ∧ m.post_emergency = false then
          max 0 (min 100 p)
        else 0 } := by
  rw [MotorSimulator.set_speed]
  split_ifs <;> rfl

theorem enable_motor_def (m : MotorSimulator) :
    m.enable_motor = { m with
      enabled := true
      pwm :=
        if m.in_emergency = false ∧ m.post_emergency = false then m.set_speed_percent
        else m.pwm } := by
  rw [MotorSimulator.enable_motor]
  split_ifs with h1 h2 h2 <;>
    first
      | rfl
      | (cases m; simp_all)

theorem disable_motor_def (m : MotorSimulator) :
    m.disable_motor =
      { m with pwm := if m.enabled = true then 0 else m.pwm, enabled := false } := by
  rw [MotorSimulator.disable_motor]
  split_ifs with h <;> cases m <;> simp_all

theorem enter_emergency_def (m : MotorSimulator) :
    m.enter_emergency = { m with
      in_emergency := true
      post_emergency := false
      pwm := if m.enabled = true then 0 else m.pwm
      enabled := false
      alarm_on := true } := by
  rw [MotorSimulator.enter_emergency, MotorSimulator.disable_motor, MotorSimulator._sound_alarm]
  split_ifs with h <;> cases m <;> simp_all

theorem exit_emergency_def (m : MotorSimulator) :
    m.exit_emergency = { m with
      in_emergency := false
      post_emergency := true
      pwm := if m.enabled = true then 0 else m.pwm
      enabled := false
      alarm_on := false } := by
  rw [MotorSimulator.exit_emergency, MotorSimulator.disable_motor, MotorSimulator._sound_alarm]
  split_ifs with h <;> cases m <;> simp_all

theorem complete_post_emergency_def (m : MotorSimulator) :
    m.complete_post_emergency =
      if m.enabled = true then
        { m with post_emergency := false }.set_speed
          (if m._last_nonzero_speed ≠ 0 then m._last_nonzero_speed else 30)
      else { m with post_emergency := false } := by
  rw [MotorSimulator.complete_post_emergency]

/-! ### Field-preservation lemmas for the motor operations -/

@[simp] theorem set_speed_percent_eq (m : MotorSimulator) (p : ℤ) :
    (m.set_speed p).set_speed_percent = max 0 (min 100 p) := by
  rw [set_speed_def]

@[simp] theorem set_speed_current_rpm (m : MotorSimulator) (p : ℤ) :
    (m.set_speed p).current_rpm = m.current_rpm := by
  rw [set_speed_def]

@[simp] theorem set_speed_set_rpm (m : MotorSimulator) (p : ℤ) :
    (m.set_speed p).set_rpm = m.set_rpm := by
  rw [set_speed_def]

@[simp] theorem set_speed_temperature (m : MotorSimulator) (p : ℤ) :
    (m.set_speed p).temperature = m.temperature := by
  rw [set_speed_def]

@[simp] theorem set_speed_in_emergency (m : MotorSimulator) (p : ℤ) :
    (m.set_speed p).in_emergency = m.in_emergency := by
  rw [set_speed_def]

@[simp] theorem set_speed_post_emergency (m : MotorSimulator) (p : ℤ) :
    (m.set_speed p).post_emergency = m.post_emergency := by
  rw [set_speed_def]

@[simp] theorem set_speed_enabled (m : MotorSimulator) (p : ℤ) :
    (m.set_speed p).enabled = m.enabled := by
  rw [set_speed_def]

@[simp] theorem set_speed_slow_down (m : MotorSimulator) (p : ℤ) :
    (m.set_speed p).slow_down = m.slow_down := by
  rw [set_speed_def]

theorem set_speed_pwm_gated (m : MotorSimulator) (p : ℤ)
    (h : m.in_emergency = true ∨ m.post_emergency = true) :
    (m.set_speed p).pwm = 0 := by
  rw [set_speed_def]
  have hc : ¬(m.enabled = true ∧ m.in_emergency = false ∧ m.post_emergency = false) := by
    rcases h with h | h <;> simp [h]
  simp [hc]

theorem set_speed_pwm_armed (m : MotorSimulator) (p : ℤ) (h1 : m.enabled = true)
    (h2 : m.in_emergency = false) (h3 : m.post_emergency = false) :
    (m.set_speed p).pwm = max 0 (min 100 p) := by
  rw [set_speed_def]
  simp [h1, h2, h3]

@[simp] theorem stepSetRpm_set_rpm (m : MotorSimulator) :
    m.stepSetRpm.set_rpm = pyIntQ ((m.set_speed_percent : ℚ) * (MAX_RPM : ℚ) / 100) := rfl

@[simp] theorem stepSetRpm_percent (m : MotorSimulator) :
    m.stepSetRpm.set_speed_percent = m.set_speed_percent := rfl

@[simp] theorem stepSetRpm_current_rpm (m : MotorSimulator) :
    m.stepSetRpm.current_rpm = m.current_rpm := rfl

@[simp] theorem stepSetRpm_temperature (m : MotorSimulator) :
    m.stepSetRpm.temperature = m.temperature := rfl

@[simp] theorem stepSetRpm_in_emergency (m : MotorSimulator) :
    m.stepSetRpm.in_emergency = m.in_emergency := rfl

@[simp] theorem stepSetRpm_post_emergency (m : MotorSimulator) :
    m.stepSetRpm.post_emergency = m.post_emergency := rfl

@[simp] theorem stepSetRpm_enabled (m : MotorSimulator) :
    m.stepSetRpm.enabled = m.enabled := rfl

@[simp] theorem stepSetRpm_pwm (m : MotorSimulator) : m.stepSetRpm.pwm = m.pwm := rfl

@[simp] theorem stepSetRpm_slow_down (m : MotorSimulator) :
    m.stepSetRpm.slow_down = m.slow_down := rfl

@[simp] theorem stepRamp_percent (m : MotorSimulator) :
    m.stepRamp.set_speed_percent = m.set_speed_percent := by
  unfold MotorSimulator.stepRamp
  split_ifs <;> rfl

@[simp] theorem stepRamp_temperature (m : MotorSimulator) :
    m.stepRamp.temperature = m.temperature := by
  unfold MotorSimulator.stepRamp
  split_ifs <;> rfl

@[simp] theorem stepRamp_set_rpm (m : MotorSimulator) : m.stepRamp.set_rpm = m.set_rpm := by
  unfold MotorSimulator.stepRamp
  split_ifs <;> rfl

@[simp] theorem stepRamp_in_emergency (m : MotorSimulator) :
    m.stepRamp.in_emergency = m.in_emergency := by
  unfold MotorSimulator.stepRamp
  split_ifs <;> rfl

@[simp] theorem stepRamp_post_emergency (m : MotorSimulator) :
    m.stepRamp.post_emergency = m.post_emergency := by
  unfold MotorSimulator.stepRamp
  split_ifs <;> rfl

@[simp] theorem stepRamp_enabled (m : MotorSimulator) : m.stepRamp.enabled = m.enabled := by
  unfold MotorSimulator.stepRamp
  split_ifs <;> rfl

@[simp] theorem stepRamp_pwm (m : MotorSimulator) : m.stepRamp.pwm = m.pwm := by
  unfold MotorSimulator.stepRamp
  split_ifs <;> rfl

@[simp] theorem stepRamp_slow_down (m : MotorSimulator) :
    m.stepRamp.slow_down = m.slow_down := by
  unfold MotorSimulator.stepRamp
  split_ifs <;> rfl

@[simp] theorem stepHeat_current_rpm (m : MotorSimulator) :
    m.stepHeat.current_rpm = m.current_rpm := rfl

@[simp] theorem stepHeat_percent (m : MotorSimulator) :
    m.stepHeat.set_speed_percent = m.set_speed_percent := rfl

@[simp] theorem stepHeat_in_emergency (m : MotorSimulator) :
    m.stepHeat.in_emergency = m.in_emergency := rfl

@[simp] theorem stepHeat_post_emergency (m : MotorSimulator) :
    m.stepHeat.post_emergency = m.post_emergency := rfl

@[simp] theorem stepHeat_enabled (m : MotorSimulator) : m.stepHeat.enabled = m.enabled := rfl

@[simp] theorem stepHeat_pwm (m : MotorSimulator) : m.stepHeat.pwm = m.pwm := rfl

@[simp] theorem stepHeat_slow_down (m : MotorSimulator) :
    m.stepHeat.slow_down = m.slow_down := rfl

@[simp] theorem stepCool_current_rpm (m : MotorSimulator) :
    m.stepCool.current_rpm = m.current_rpm := by
  unfold MotorSimulator.stepCool
  split_ifs <;> rfl

@[simp] theorem stepCool_percent (m : MotorSimulator) :
    m.stepCool.set_speed_percent = m.set_speed_percent := by
  unfold MotorSimulator.stepCool
  split_ifs <;> rfl

@[simp] theorem stepCool_in_emergency (m : MotorSimulator) :
    m.stepCool.in_emergency = m.in_emergency := by
  unfold MotorSimulator.stepCool
  split_ifs <;> rfl

@[simp] theorem stepCool_post_emergency (m : MotorSimulator) :
    m.stepCool.post_emergency = m.post_emergency := by
  unfold MotorSimulator.stepCool
  split_ifs <;> rfl

@[simp] theorem stepCool_enabled (m : MotorSimulator) : m.stepCool.enabled = m.enabled := by
  unfold MotorSimulator.stepCool
  split_ifs <;> rfl

@[simp] theorem stepCool_pwm (m : MotorSimulator) : m.stepCool.pwm = m.pwm := by
  unfold MotorSimulator.stepCool
  split_ifs <;> rfl

@[simp] theorem stepCool_slow_down (m : MotorSimulator) :
    m.stepCool.slow_down = m.slow_down := by
  unfold MotorSimulator.stepCool
  split_ifs <;> rfl

@[simp] theorem stepClamp_current_rpm (m : MotorSimulator) :
    m.stepClamp.current_rpm = m.current_rpm := by
  unfold MotorSimulator.stepClamp
  simp [apply_ite MotorSimulator.current_rpm]

@[simp] theorem stepClamp_percent (m : MotorSimulator) :
    m.stepClamp.set_speed_percent = m.set_speed_percent := by
  unfold MotorSimulator.stepClamp
  simp [apply_ite MotorSimulator.set_speed_percent]

@[simp] theorem stepClamp_in_emergency (m : MotorSimulator) :
    m.stepClamp.in_emergency = m.in_emergency := by
  unfold MotorSimulator.stepClamp
  simp [apply_ite MotorSimulator.in_emergency]

@[simp] theorem stepClamp_post_emergency (m : MotorSimulator) :
    m.stepClamp.post_emergency = m.post_emergency := by
  unfold MotorSimulator.stepClamp
  simp [apply_ite MotorSimulator.post_emergency]

@[simp] theorem stepClamp_enabled (m : MotorSimulator) : m.stepClamp.enabled = m.enabled := by
  unfold MotorSimulator.stepClamp
  simp [apply_ite MotorSimulator.enabled]

@[simp] theorem stepClamp_pwm (m : MotorSimulator) : m.stepClamp.pwm = m.pwm := by
  unfold MotorSimulator.stepClamp
  simp [apply_ite MotorSimulator.pwm]

@[simp] theorem stepClamp_slow_down (m : MotorSimulator) :
    m.stepClamp.slow_down = m.slow_down := by
  unfold MotorSimulator.stepClamp
  simp [apply_ite MotorSimulator.slow_down]

@[simp] theorem stepThrottle_current_rpm (m : MotorSimulator) :
    m.stepThrottle.current_rpm = m.current_rpm := by
  unfold MotorSimulator.stepThrottle
  simp [apply_ite MotorSimulator.current_rpm]

@[simp] theorem stepThrottle_temperature (m : MotorSimulator) :
    m.stepThrottle.temperature = m.temperature := by
  unfold MotorSimulator.stepThrottle
  simp [apply_ite MotorSimulator.temperature]

@[simp] theorem stepThrottle_in_emergency (m : MotorSimulator) :
    m.stepThrottle.in_emergency = m.in_emergency := by
  unfold MotorSimulator.stepThrottle
  simp [apply_ite MotorSimulator.in_emergency]

@[simp] theorem stepThrottle_post_emergency (m : MotorSimulator) :
    m.stepThrottle.post_emergency = m.post_emergency := by
  unfold MotorSimulator.stepThrottle
  simp [apply_ite MotorSimulator.post_emergency]

@[simp] theorem stepThrottle_enabled (m : MotorSimulator) :
    m.stepThrottle.enabled = m.enabled := by
  unfold MotorSimulator.stepThrottle
  simp [apply_ite MotorSimulator.enabled]

@[simp] theorem stepFluct_current_rpm (m : MotorSimulator) (r : ℚ) :
    (m.stepFluct r).current_rpm = m.current_rpm := by
  unfold MotorSimulator.stepFluct
  split_ifs <;> rfl

@[simp] theorem stepFluct_percent (m : MotorSimulator) (r : ℚ) :
    (m.stepFluct r).set_speed_percent = m.set_speed_percent := by
  unfold MotorSimulator.stepFluct
  split_ifs <;> rfl

@[simp] theorem stepFluct_in_emergency (m : MotorSimulator) (r : ℚ) :
    (m.stepFluct r).in_emergency = m.in_emergency := by
  unfold MotorSimulator.stepFluct
  split_ifs <;> rfl

@[simp] theorem stepFluct_post_emergency (m : MotorSimulator) (r : ℚ) :
    (m.stepFluct r).post_emergency = m.post_emergency := by
  unfold MotorSimulator.stepFluct
  split_ifs <;> rfl

@[simp] theorem stepFluct_enabled (m : MotorSimulator) (r : ℚ) :
    (m.stepFluct r).enabled = m.enabled := by
  unfold MotorSimulator.stepFluct
  split_ifs <;> rfl

@[simp] theorem stepFluct_pwm (m : MotorSimulator) (r : ℚ) :
    (m.stepFluct r).pwm = m.pwm := by
  unfold MotorSimulator.stepFluct
  split_ifs <;> rfl

/-! ### Bounds lemmas for the motor tick -/

theorem stepSetRpm_set_rpm_bounds (m : MotorSimulator) (h0 : 0 ≤ m.set_speed_percent)
    (h1 : m.set_speed_percent ≤ 100) :
    0 ≤ m.stepSetRpm.set_rpm ∧ m.stepSetRpm.set_rpm ≤ 2750 := by
  rw [stepSetRpm_set_rpm, pyIntQ_rpm _ h0]
  omega

theorem stepRamp_rpm_bounds (m : MotorSimulator) (h0 : 0 ≤ m.current_rpm)
    (h1 : m.current_rpm ≤ 2750) (h2 : 0 ≤ m.set_rpm) (h3 : m.set_rpm ≤ 2750) :
    0 ≤ m.stepRamp.current_rpm ∧ m.stepRamp.current_rpm ≤ 2750 := by
  unfold MotorSimulator.stepRamp
  split_ifs with ha hb
  · simp only
    rw [pyIntQ_mul_03 _ (by omega)]
    omega
  · simp only
    rw [pyIntQ_mul_03 _ (by omega)]
    omega
  · exact ⟨h0, h1⟩

theorem stepRamp_mono (m : MotorSimulator) (h : m.current_rpm ≤ m.set_rpm) :
    m.current_rpm ≤ m.stepRamp.current_rpm := by
  unfold MotorSimulator.stepRamp
  split_ifs with ha hb
  · simp only
    rw [pyIntQ_mul_03 _ (by omega)]
    omega
  · omega
  · exact le_refl _

theorem stepClamp_tempInv (m : MotorSimulator) : TempInv m.stepClamp := by
  have e : m.stepClamp.temperature =
      if (if m.temperature < 0 then (0 : ℚ) else m.temperature) > 70 then 70
      else if m.temperature < 0 then 0 else m.temperature := by
    unfold MotorSimulator.stepClamp
    simp [apply_ite MotorSimulator.temperature]
  constructor <;> rw [e] <;> split_ifs <;> linarith

theorem stepThrottle_speedInv (m : MotorSimulator) (h : SpeedInv m) :
    SpeedInv m.stepThrottle := by
  obtain ⟨h0, h1⟩ := h
  unfold MotorSimulator.stepThrottle SpeedInv
  simp only [apply_ite MotorSimulator.set_speed_percent, set_speed_percent_eq]
  split_ifs <;> constructor <;> omega

theorem stepFluct_tempInv (m : MotorSimulator) (r : ℚ) (h : TempInv m)
    (h1 : -1 ≤ r) (h2 : r ≤ 1) : TempInv (m.stepFluct r) := by
  unfold MotorSimulator.stepFluct
  split_ifs with hc
  · constructor <;> simp only [BASELINE_TEMP] <;> linarith
  · exact h

/-- The motor tick keeps the commanded speed, the RPM and the temperature in
their clamped ranges. -/
theorem update_inv (m : MotorSimulator) (r : ℚ) (h : MotorInv m)
    (h1 : -1 ≤ r) (h2 : r ≤ 1) : MotorInv (m.update r) := by
  obtain ⟨⟨hp0, hp1⟩, ⟨hc0, hc1⟩, ht0, ht1⟩ := h
  have hsr := stepSetRpm_set_rpm_bounds m hp0 hp1
  have hramp := stepRamp_rpm_bounds m.stepSetRpm (by simpa using hc0) (by simpa using hc1)
    hsr.1 hsr.2
  have hsp : SpeedInv m.stepSetRpm.stepRamp.stepHeat.stepCool.stepClamp := by
    simp only [SpeedInv, stepClamp_percent, stepCool_percent, stepHeat_percent,
      stepRamp_percent, stepSetRpm_percent]
    exact ⟨hp0, hp1⟩
  have hsp2 := stepThrottle_speedInv _ hsp
  have htc2 : TempInv m.stepSetRpm.stepRamp.stepHeat.stepCool.stepClamp.stepThrottle := by
    simpa only [TempInv, stepThrottle_temperature] using
      stepClamp_tempInv m.stepSetRpm.stepRamp.stepHeat.stepCool
  have htf := stepFluct_tempInv _ r htc2 h1 h2
  unfold MotorSimulator.update
  refine ⟨?_, ?_, ?_⟩
  · simpa only [SpeedInv, stepFluct_percent] using hsp2
  · simp only [RpmInv, stepFluct_current_rpm, stepThrottle_current_rpm,
      stepClamp_current_rpm, stepCool_current_rpm, stepHeat_current_rpm]
    exact hramp
  · exact htf

@[simp] theorem update_in_emergency (m : MotorSimulator) (r : ℚ) :
    (m.update r).in_emergency = m.in_emergency := by
  simp [MotorSimulator.update]

@[simp] theorem update_post_emergency (m : MotorSimulator) (r : ℚ) :
    (m.update r).post_emergency = m.post_emergency := by
  simp [MotorSimulator.update]

@[simp] theorem update_enabled (m : MotorSimulator) (r : ℚ) :
    (m.update r).enabled = m.enabled := by
  simp [MotorSimulator.update]

/-! ### The emergency window keeps the PWM line at zero -/

@[simp] theorem enable_motor_in_emergency (m : MotorSimulator) :
    m.enable_motor.in_emergency = m.in_emergency := by
  rw [enable_motor_def]

@[simp] theorem enable_motor_post_emergency (m : MotorSimulator) :
    m.enable_motor.post_emergency = m.post_emergency := by
  rw [enable_motor_def]

@[simp] theorem disable_motor_in_emergency (m : MotorSimulator) :
    m.disable_motor.in_emergency = m.in_emergency := by
  rw [disable_motor_def]

@[simp] theorem disable_motor_post_emergency (m : MotorSimulator) :
    m.disable_motor.post_emergency = m.post_emergency := by
  rw [disable_motor_def]

theorem stepThrottle_pwm_gated (m : MotorSimulator)
    (hg : m.in_emergency = true ∨ m.post_emergency = true) (hp : m.pwm = 0) :
    m.stepThrottle.pwm = 0 := by
  unfold MotorSimulator.stepThrottle
  simp only [apply_ite MotorSimulator.pwm]
  split_ifs <;>
    first
      | exact hp
      | exact set_speed_pwm_gated _ _ (by simpa using hg)

theorem update_pwm_gated (m : MotorSimulator) (r : ℚ)
    (hg : m.in_emergency = true ∨ m.post_emergency = true) (hp : m.pwm = 0) :
    (m.update r).pwm = 0 := by
  unfold MotorSimulator.update
  rw [stepFluct_pwm]
  exact stepThrottle_pwm_gated _ (by simpa using hg) (by simpa using hp)

theorem toggle_digital_gated (m : MotorSimulator)
    (hg : m.in_emergency = true ∨ m.post_emergency = true) :
    m.toggle_digital = { m with digitally_toggled_off := false } := by
  unfold MotorSimulator.toggle_digital
  have hc1 : ¬(m.set_speed_percent > 0 ∧ m.in_emergency = false ∧ m.post_emergency = false) := by
    rcases hg with h | h <;> simp [h]
  have hc2 : ¬(m.enabled = true ∧ m.in_emergency = false ∧ m.post_emergency = false) := by
    rcases hg with h | h <;> simp [h]
  rw [if_neg hc1, if_neg hc2]

/-- The emergency gate is preserved by every motor operation other than
`complete_post_emergency`: the flags stay raised and the PWM line stays at
duty 0. -/
theorem gated_applyOp (m : MotorSimulator) (h : Gated m) (op : MotorOp)
    (hop : op ≠ MotorOp.completePostEmergency) : Gated (m.applyOp op) := by
  obtain ⟨hflag, hpwm⟩ := h
  cases op with
  | setSpeed p =>
    simp only [MotorSimulator.applyOp]
    exact ⟨by simpa using hflag, set_speed_pwm_gated m p hflag⟩
  | update r =>
    simp only [MotorSimulator.applyOp]
    exact ⟨by simpa using hflag, update_pwm_gated m r hflag hpwm⟩
  | enableMotor =>
    simp only [MotorSimulator.applyOp]
    refine ⟨by simpa using hflag, ?_⟩
    rw [enable_motor_def]
    show (if m.in_emergency = false ∧ m.post_emergency = false then m.set_speed_percent
      else m.pwm) = 0
    rw [if_neg (by rcases hflag with h | h <;> simp [h])]
    exact hpwm
  | disableMotor =>
    simp only [MotorSimulator.applyOp]
    refine ⟨by simpa using hflag, ?_⟩
    rw [disable_motor_def]
    show (if m.enabled = true then 0 else m.pwm) = 0
    split_ifs <;> simp [hpwm]
  | toggleDigital =>
    simp only [MotorSimulator.applyOp]
    rw [toggle_digital_gated m hflag]
    exact ⟨hflag, hpwm⟩
  | enterEmergency =>
    simp only [MotorSimulator.applyOp]
    refine ⟨Or.inl (by rw [enter_emergency_def]), ?_⟩
    rw [enter_emergency_def]
    show (if m.enabled = true then 0 else m.pwm) = 0
    split_ifs <;> simp [hpwm]
  | exitEmergency =>
    simp only [MotorSimulator.applyOp]
    refine ⟨Or.inr (by rw [exit_emergency_def]), ?_⟩
    rw [exit_emergency_def]
    show (if m.enabled = true then 0 else m.pwm) = 0
    split_ifs <;> simp [hpwm]
  | completePostEmergency => exact absurd rfl hop

theorem gated_run (m : MotorSimulator) (h : Gated m) (ops : List MotorOp)
    (hops : ∀ op ∈ ops, op ≠ MotorOp.completePostEmergency) : Gated (m.run ops) := by
  induction ops generalizing m with
  | nil => exact h
  | cons op rest ih =>
    rw [MotorSimulator.run, List.foldl_cons]
    exact ih _ (gated_applyOp m h op (hops op (by simp)))
      (fun o ho => hops o (by simp [ho]))

theorem enter_emergency_gated (m : MotorSimulator) (hm : PwmSafe m) :
    Gated m.enter_emergency := by
  refine ⟨Or.inl (by rw [enter_emergency_def]), ?_⟩
  rw [enter_emergency_def]
  show (if m.enabled = true then 0 else m.pwm) = 0
  split_ifs with h
  · rfl
  · exact hm (by simpa using h)

/-! ### Claim theorems -/

/-- C1: the source polls only the switch LEVEL — `update_status_bar` keeps no
previous level and no edge detector exists anywhere in the program — so from a
PostEmergency state a single status tick that observes the switch
continuously on already invokes `complete_post_emergency` and clears
PostEmergency, with no off→on transition ever observed.  This contradicts the
claim (and the source's own docstring "Called when physical Motor switch
cycles OFF→ON"): leaving PostEmergency does NOT require an edge. -/
theorem C1_post_emergency_cleared_by_level :
    postEmergencyState.post_emergency = true ∧
    ((update_status_bar true postEmergencyState).1).post_emergency = false ∧
    (update_status_bar true postEmergencyState).2 = "Status: Ready" := by
  decide

/-- C2 counterexample: with the switch on, no emergency, and the
hold-to-start confirmation NOT completed, the remote (Blynk) speed handler
drives the motor to 50% — both the stored command and the physical PWM duty
change — while the identical local preset button is rejected.  The remote
path is not gated by the hold-confirmation, refuting the claim. -/
theorem C2_counterexample_remote_sets_speed_without_hold :
    c2state.start_confirmed = false ∧
    c2state.motor.set_speed_percent = 0 ∧
    (handle_speed_slider c2state [50]).motor.set_speed_percent = 50 ∧
    (handle_speed_slider c2state [50]).motor.pwm = 50 ∧
    (on_speed_button c2state 50).motor = c2state.motor := by
  decide

/-- C2 amended: remote speed/toggle commands are gated by the motor-switch
and emergency checks exactly like local input, but — unlike the local
controls — they bypass the hold-confirmation (`start_confirmed`) gate
entirely: whenever the switch is on and no (post-)emergency holds, the remote
handlers act on the motor regardless of `start_confirmed`, while the local
handlers reject any command until the hold confirmation is completed. -/
theorem C2_remote_bypasses_hold_gate (s : UIState) (v : ℤ) :
    (s.switchOn = true → s.motor.in_emergency = false → s.motor.post_emergency = false →
      (handle_speed_slider s [v]).motor = s.motor.set_speed v ∧
      (handle_dig_toggle s [1]).motor = s.motor.toggle_digital) ∧
    (s.switchOn = false →
      (handle_speed_slider s [v]).motor = s.motor ∧
      (handle_dig_toggle s [1]).motor = s.motor) ∧
    ((s.motor.in_emergency = true ∨ s.motor.post_emergency = true) →
      (handle_speed_slider s [v]).motor = s.motor ∧
      (handle_dig_toggle s [1]).motor = s.motor) ∧
    (s.start_confirmed = false →
      (on_speed_button s v).motor = s.motor ∧ (on_dig_toggle s).motor = s.motor) := by
  refine ⟨?_, ?_, ?_, ?_⟩
  · intro h1 h2 h3
    constructor
    · simp [handle_speed_slider, h1, h2, h3]
    · simp [handle_dig_toggle, h1, h2, h3]
  · intro h1
    constructor <;> simp [handle_speed_slider, handle_dig_toggle, h1]
  · intro h
    constructor <;>
      simp [handle_speed_slider, handle_dig_toggle, apply_ite UIState.motor, h]
  · intro h1
    constructor <;>
      simp [on_speed_button, on_dig_toggle, apply_ite UIState.motor, h1]

theorem C2_remote_bypasses_hold_gate_witness :
    (handle_speed_slider c2state [40]).motor = c2state.motor.set_speed 40 ∧
    (on_speed_button c2state 40).motor = c2state.motor := by
  have h := C2_remote_bypasses_hold_gate c2state 40
  exact ⟨(h.1 rfl rfl rfl).1, (h.2.2.2 rfl).1⟩

/-- C6 counterexample: all four parameters below lie inside the settings
sliders' ranges and are positive, yet the inner zone (400×400) is larger than
the outer zone (100×100): its polygon area is larger and its bounding box is
not contained in the outer zone's.  `compute_zones` imposes no relation
between the inner and outer parameters, so the claim fails without an extra
nesting hypothesis. -/
theorem C6_counterexample_inner_not_smaller :
    (100 ≤ c6badParams.outer_width ∧ c6badParams.outer_width ≤ 600) ∧
    (100 ≤ c6badParams.outer_height ∧ c6badParams.outer_height ≤ 400) ∧
    (50 ≤ c6badParams.inner_width ∧ c6badParams.inner_width ≤ 400) ∧
    (50 ≤ c6badParams.inner_height ∧ c6badParams.inner_height ≤ 400) ∧
    c6badParams.zone_offset_x = 0 ∧ c6badParams.zone_offset_y = 0 ∧
    ¬((compute_zones 640 480 c6badParams).2.area2
        < (compute_zones 640 480 c6badParams).1.area2 ∧
      bboxInside (compute_zones 640 480 c6badParams).2
        (compute_zones 640 480 c6badParams).1) := by
  decide

/-- C7 counterexample: with the default parameters (outer 400×300,
inner 200×200, offsets 0) on a 640×480 frame, the outer zone's top edge spans
400 px and its bottom edge 200 px — not the 240 px / 120 px the claim states
(the inner-zone figures 200 px / 100 px are correct). -/
theorem C7_counterexample_outer_spans :
    ¬((compute_zones 640 480 defaultZoneParams).1.p2.1
        - (compute_zones 640 480 defaultZoneParams).1.p1.1 = 240 ∧
      (compute_zones 640 480 defaultZoneParams).1.p3.1
        - (compute_zones 640 480 defaultZoneParams).1.p4.1 = 120 ∧
      (compute_zones 640 480 defaultZoneParams).2.p2.1
        - (compute_zones 640 480 defaultZoneParams).2.p1.1 = 200 ∧
      (compute_zones 640 480 defaultZoneParams).2.p3.1
        - (compute_zones 640 480 defaultZoneParams).2.p4.1 = 100) := by
  decide

/-- C7 amended: with default zone parameters on a 640×480 frame, the outer
zone's top edge spans 400 px centered at x = 320 and its bottom edge spans
200 px; the inner zone's top edge spans 200 px (also centered at x = 320) and
its bottom edge spans 100 px. -/
theorem C7_default_zone_spans :
    (compute_zones 640 480 defaultZoneParams).1.p2.1
      - (compute_zones 640 480 defaultZoneParams).1.p1.1 = 400 ∧
    (compute_zones 640 480 defaultZoneParams).1.p1.1
      + (compute_zones 640 480 defaultZoneParams).1.p2.1 = 2 * 320 ∧
    (compute_zones 640 480 defaultZoneParams).1.p3.1
      - (compute_zones 640 480 defaultZoneParams).1.p4.1 = 200 ∧
    (compute_zones 640 480 defaultZoneParams).2.p2.1
      - (compute_zones 640 480 defaultZoneParams).2.p1.1 = 200 ∧
    (compute_zones 640 480 defaultZoneParams).2.p1.1
      + (compute_zones 640 480 defaultZoneParams).2.p2.1 = 2 * 320 ∧
    (compute_zones 640 480 defaultZoneParams).2.p3.1
      - (compute_zones 640 480 defaultZoneParams).2.p4.1 = 100 := by
  decide

/-- C9: `load_settings_from_file` only guards against a missing file and
`json.JSONDecodeError`.  A settings file holding syntactically valid JSON
that is not an object — here the JSON text `[]` — parses fine, and the
subsequent `settings.get(...)` raises `AttributeError`, which propagates: the
claim that corrupted data never raises is right about the intent (the
handler's own message says "corrupted. Using defaults.") but wrong about the
code.  The missing-file and decode-error paths do leave the parameters
unchanged, as shown by the last two conjuncts. -/
theorem C9_load_settings_raises_on_nonobject_json :
    load_settings_from_file defaultSettingsState (SettingsFile.parsed (Json.arr []))
      = PyOutcome.raised "AttributeError" ∧
    load_settings_from_file defaultSettingsState SettingsFile.missing
      = PyOutcome.ok defaultSettingsState ∧
    load_settings_from_file defaultSettingsState SettingsFile.decodeError
      = PyOutcome.ok defaultSettingsState :=
  ⟨rfl, rfl, rfl⟩

/-- C10: `enter_emergency` called in ANY state — in particular with
`post_emergency = true` — sets `in_emergency`, clears `post_emergency`,
disables the driver and forces the PWM line to duty 0; the subsequent
`exit_emergency` (the touch acknowledgement after the 2 s lockout) then
re-establishes PostEmergency with the output still at 0, so the full
two-step exit protocol applies afresh.  (`PwmSafe` holds of every reachable
state: the PWM line is at 0 whenever the driver is disabled.) -/
theorem C10_enter_emergency_from_any_state (m : MotorSimulator) (hm : PwmSafe m) :
    m.enter_emergency.in_emergency = true ∧
    m.enter_emergency.post_emergency = false ∧
    m.enter_emergency.enabled = false ∧
    m.enter_emergency.pwm = 0 ∧
    m.enter_emergency.exit_emergency.in_emergency = false ∧
    m.enter_emergency.exit_emergency.post_emergency = true ∧
    m.enter_emergency.exit_emergency.pwm = 0 := by
  have h1 := enter_emergency_gated m hm
  refine ⟨by rw [enter_emergency_def], by rw [enter_emergency_def],
    by rw [enter_emergency_def], h1.2, by rw [exit_emergency_def],
    by rw [exit_emergency_def], ?_⟩
  rw [exit_emergency_def]
  show (if m.enter_emergency.enabled = true then 0 else m.enter_emergency.pwm) = 0
  split_ifs
  · rfl
  · exact h1.2

theorem C10_enter_emergency_from_any_state_witness :
    postEmergencyState.post_emergency = true ∧
    postEmergencyState.enter_emergency.in_emergency = true ∧
    postEmergencyState.enter_emergency.post_emergency = false ∧
    postEmergencyState.enter_emergency.pwm = 0 := by
  have h := C10_enter_emergency_from_any_state postEmergencyState (by decide)
  exact ⟨by decide, h.1, h.2.1, h.2.2.2.1⟩


/-! ### Evaluating the ramp scenario in 16-tick chunks -/

theorem c4state_add (a b : ℕ) :
    c4state (a + b) = (fun m => MotorSimulator.update m 0)^[a] (c4state b) := by
  rw [c4state, c4state, Function.iterate_add_apply]

set_option maxRecDepth 8000 in
theorem c4state_16 : c4state 16 = c4s16 := by decide

set_option maxRecDepth 8000 in
theorem c4state_32 : c4state 32 = c4s32 := by
  rw [show (32 : ℕ) = 16 + 16 from rfl, c4state_add, c4state_16]
  decide

set_option maxRecDepth 8000 in
theorem c4state_48 : c4state 48 = c4s48 := by
  rw [show (48 : ℕ) = 16 + 32 from rfl, c4state_add, c4state_32]
  decide

set_option maxRecDepth 8000 in
theorem c4state_64 : c4state 64 = c4s64 := by
  rw [show (64 : ℕ) = 16 + 48 from rfl, c4state_add, c4state_48]
  decide

set_option maxRecDepth 8000 in
theorem c4state_80 : c4state 80 = c4s80 := by
  rw [show (80 : ℕ) = 16 + 64 from rfl, c4state_add, c4state_64]
  decide

set_option maxRecDepth 8000 in
theorem c4state_95 : c4state 95 = c4s95 := by
  rw [show (95 : ℕ) = 15 + 80 from rfl, c4state_add, c4state_80]
  decide

set_option maxRecDepth 8000 in
theorem c4state_96 : c4state 96 = c4s96 := by
  rw [show (96 : ℕ) = 1 + 95 from rfl, c4state_add, c4state_95]
  decide

/-- C4 counterexample: in exactly the claimed scenario — `set_speed(100)`
once from the initial state, then repeated `update` ticks — `current_rpm`
climbs to 2747 and plateaus, but at tick 95 the temperature reaches 60.25 °C,
the thermal slow-down reduces the commanded speed to 99%, and at tick 96
`current_rpm` falls from 2747 to 2740.  So `current_rpm` does NOT
monotonically increase at every tick: the claim ignores the interaction with
the thermal throttle (spec §4.4 step 4). -/
theorem C4_counterexample_rpm_decreases_at_tick_96 :
    (c4state 96).current_rpm < (c4state 95).current_rpm := by
  rw [c4state_95, c4state_96]
  decide

theorem c4state_inv (n : ℕ) : MotorInv (c4state n) := by
  induction n with
  | zero => decide
  | succ n ih =>
    have e : c4state (n + 1) = (c4state n).update 0 := by
      rw [c4state, Function.iterate_succ_apply']
      rfl
    rw [e]
    exact update_inv _ 0 ih (by norm_num) (by norm_num)

/-- C4 amended: in the scenario (`set_speed(100)` once, then repeated
ticks), `current_rpm` always stays within [0, 2750] — it never overshoots
2750 — and it is non-decreasing at every tick at whose start the commanded
speed is still 100%; it can decrease only after the thermal throttle has
lowered the commanded speed below 100, which first happens at tick 96. -/
theorem C4_rpm_bounded_and_monotone_until_throttle (n : ℕ) :
    (0 ≤ (c4state n).current_rpm ∧ (c4state n).current_rpm ≤ 2750) ∧
    ((c4state n).set_speed_percent = 100 →
      (c4state n).current_rpm ≤ (c4state (n + 1)).current_rpm) := by
  have hinv := c4state_inv n
  constructor
  · exact hinv.2.1
  · intro hp
    have e : c4state (n + 1) = (c4state n).update 0 := by
      rw [c4state, Function.iterate_succ_apply']
      rfl
    rw [e]
    unfold MotorSimulator.update
    simp only [stepFluct_current_rpm, stepThrottle_current_rpm, stepClamp_current_rpm,
      stepCool_current_rpm, stepHeat_current_rpm]
    have hset : ((c4state n).stepSetRpm).set_rpm = 2750 := by
      rw [stepSetRpm_set_rpm, hp]
      decide
    have hle : ((c4state n).stepSetRpm).current_rpm ≤ ((c4state n).stepSetRpm).set_rpm := by
      rw [stepSetRpm_current_rpm, hset]
      exact hinv.2.1.2
    simpa using stepRamp_mono _ hle

set_option maxRecDepth 2000 in
theorem C4_rpm_bounded_and_monotone_until_throttle_witness :
    ((c4state 3).set_speed_percent = 100 ∧ (c4state 3).current_rpm ≤ 2750) ∧
    (c4state 3).current_rpm ≤ (c4state 4).current_rpm :=
  ⟨⟨by decide, (C4_rpm_bounded_and_monotone_until_throttle 3).1.2⟩,
    (C4_rpm_bounded_and_monotone_until_throttle 3).2 (by decide)⟩

/-- C5: starting from the initial motor state, any sequence of `set_speed`
calls interleaved with any number of `update` ticks (each tick's fluctuation
draw lying in the `np.random.uniform(-1, 1)` range) keeps the temperature in
[0, 70] and `current_rpm` in [0, 2750]. -/
theorem C5_sim_bounds (ops : List MotorOp) (h : ∀ op ∈ ops, SimOpOk op) :
    0 ≤ (MotorSimulator.init.run ops).temperature ∧
    (MotorSimulator.init.run ops).temperature ≤ 70 ∧
    0 ≤ (MotorSimulator.init.run ops).current_rpm ∧
    (MotorSimulator.init.run ops).current_rpm ≤ 2750 := by
  have key : ∀ (m : MotorSimulator), MotorInv m →
      MotorInv (m.run ops) := by
    induction ops with
    | nil => exact fun m hm => hm
    | cons op rest ih =>
      intro m hm
      rw [MotorSimulator.run, List.foldl_cons]
      have hop := h op (by simp)
      have hm' : MotorInv (m.applyOp op) := by
        cases op with
        | setSpeed p =>
          simp only [MotorSimulator.applyOp]
          refine ⟨⟨?_, ?_⟩, ?_, ?_⟩
          · simp only [set_speed_percent_eq]
            omega
          · simp only [set_speed_percent_eq]
            omega
          · simpa [RpmInv] using hm.2.1
          · simpa [TempInv] using hm.2.2
        | update r =>
          exact update_inv m r hm hop.1 hop.2
        | enableMotor => exact absurd hop (by simp [SimOpOk])
        | disableMotor => exact absurd hop (by simp [SimOpOk])
        | toggleDigital => exact absurd hop (by simp [SimOpOk])
        | enterEmergency => exact absurd hop (by simp [SimOpOk])
        | exitEmergency => exact absurd hop (by simp [SimOpOk])
        | completePostEmergency => exact absurd hop (by simp [SimOpOk])
      exact ih (fun o ho => h o (by simp [ho])) _ hm'
  have := key MotorSimulator.init (by decide)
  exact ⟨this.2.2.1, this.2.2.2, this.2.1.1, this.2.1.2⟩

theorem C5_sim_bounds_witness :
    0 ≤ (MotorSimulator.init.run [MotorOp.setSpeed 80, MotorOp.update (1/2)]).temperature ∧
    (MotorSimulator.init.run [MotorOp.setSpeed 80, MotorOp.update (1/2)]).temperature ≤ 70 ∧
    0 ≤ (MotorSimulator.init.run [MotorOp.setSpeed 80, MotorOp.update (1/2)]).current_rpm ∧
    (MotorSimulator.init.run [MotorOp.setSpeed 80, MotorOp.update (1/2)]).current_rpm ≤ 2750 :=
  C5_sim_bounds [MotorOp.setSpeed 80, MotorOp.update (1/2)] (by decide)

/-- C3: from the moment `enter_emergency()` runs until
`complete_post_emergency()` runs, under any interleaving of the other motor
operations: the machine stays in Emergency or PostEmergency; the PWM line
stays at duty 0; every `set_speed(p)` stores the clamped percent in
`set_speed_percent` while still driving duty 0; and once the switch-on status
ticks ungate the motor (`complete_post_emergency` followed by
`enable_motor`), the remembered `set_speed_percent` is driven onto the PWM
line. -/
theorem C3_emergency_forces_zero_output (m : MotorSimulator) (hm : PwmSafe m)
    (ops : List MotorOp) (hops : ∀ op ∈ ops, op ≠ MotorOp.completePostEmergency)
    (t : MotorSimulator) (ht : t = (m.enter_emergency).run ops) :
    (t.in_emergency = true ∨ t.post_emergency = true) ∧
    t.pwm = 0 ∧
    (∀ p, (t.set_speed p).set_speed_percent = max 0 (min 100 p) ∧
      (t.set_speed p).pwm = 0) ∧
    (t.post_emergency = true → t.in_emergency = false → t.enabled = false →
      ((update_status_bar true ((update_status_bar true t).1)).1).pwm
          = t.set_speed_percent ∧
      ((update_status_bar true ((update_status_bar true t).1)).1).post_emergency
          = false) := by
  have hg : Gated t := ht ▸ gated_run _ (enter_emergency_gated m hm) ops hops
  refine ⟨hg.1, hg.2, ?_, ?_⟩
  · intro p
    exact ⟨set_speed_percent_eq t p, set_speed_pwm_gated t p hg.1⟩
  · intro hpost hin hen
    have e1 : (update_status_bar true t).1 = t.complete_post_emergency := by
      simp [update_status_bar, hpost]
    rw [e1, complete_post_emergency_def, if_neg (by simp [hen])]
    constructor
    · simp [update_status_bar, enable_motor_def, hin]
    · simp [update_status_bar, enable_motor_def, hin]

theorem C3_emergency_forces_zero_output_witness :
    ((MotorSimulator.init.enter_emergency).run
        [MotorOp.setSpeed 60, MotorOp.update 0]).pwm = 0 ∧
    (((MotorSimulator.init.enter_emergency).run
        [MotorOp.setSpeed 60, MotorOp.update 0]).set_speed 70).pwm = 0 := by
  have h := C3_emergency_forces_zero_output MotorSimulator.init (by decide)
    [MotorOp.setSpeed 60, MotorOp.update 0] (by decide) _ rfl
  exact ⟨h.2.1, (h.2.2.1 70).2⟩

theorem findHand_isSome (inner : Quad) (l : List Contour)
    (h : ∃ c ∈ l, MIN_HAND_AREA ≤ c.area ∧ c.m00 ≠ 0 ∧
      insideZone inner (pyIntQ (c.m10 / c.m00), pyIntQ (c.m01 / c.m00)) = true) :
    ∃ pt, findHand inner l = some pt := by
  induction l with
  | nil => simp at h
  | cons c rest ih =>
    rw [findHand]
    dsimp only
    obtain ⟨c', hc', harea, hm00, hzone⟩ := h
    split_ifs with h1 h2 h3
    · refine ih ⟨c', ?_, harea, hm00, hzone⟩
      rcases List.mem_cons.mp hc' with he | hr
      · subst he
        exact absurd harea (by simpa using h1)
      · exact hr
    · refine ih ⟨c', ?_, harea, hm00, hzone⟩
      rcases List.mem_cons.mp hc' with he | hr
      · subst he
        exact absurd h2 hm00
      · exact hr
    · exact ⟨_, rfl⟩
    · refine ih ⟨c', ?_, harea, hm00, hzone⟩
      rcases List.mem_cons.mp hc' with he | hr
      · subst he
        exact absurd hzone h3
      · exact hr

/-- C8: on a fully-processed detection tick (no emergency, capture succeeded,
frame-skip toggle landing on the full-process side), if any skin contour has
area at least `MIN_HAND_AREA` and centroid inside the inner zone, then the
hand warning text is set, `last_motion_time` is stamped with this tick's
time, exactly one HAND_DETECTED line is appended to the event log — in
particular no MOTION event — and the previous-frame buffer is left untouched:
the motion-detection pass is skipped wholesale, regardless of what
`motion_contours` the frame difference would have produced. -/
theorem C8_hand_priority (fw fh : ℕ) (zp : ZoneParams) (wd : ℚ)
    (inp : TickInput) (s : FrameTickState)
    (hcap : inp.captured = true) (htog : s.frame_toggle = false)
    (hhand : ∃ c ∈ inp.skin_contours, MIN_HAND_AREA ≤ c.area ∧ c.m00 ≠ 0 ∧
      insideZone (compute_zones fw fh zp).2
        (pyIntQ (c.m10 / c.m00), pyIntQ (c.m01 / c.m00)) = true)
    (out : FrameTickState) (hout : out = update_frame fw fh zp wd false inp s) :
    out.warning_text = "[color=ff0]WARNING: HAND DETECTED IN CUTTING AREA[/color]" ∧
    out.last_motion_time = inp.now ∧
    out.prev_frame = s.prev_frame ∧
    ∃ cx cy, out.log = Event.handDetected cx cy :: s.log := by
  obtain ⟨pt, hfh⟩ := findHand_isSome (compute_zones fw fh zp).2 inp.skin_contours hhand
  obtain ⟨cx, cy⟩ := pt
  subst hout
  refine ⟨?_, ?_, ?_, ⟨cx, cy, ?_⟩⟩ <;>
    simp [update_frame, hcap, htog, hfh, setStatusLabel,
      apply_ite FrameTickState.warning_text, apply_ite FrameTickState.last_motion_time,
      apply_ite FrameTickState.prev_frame, apply_ite FrameTickState.log]

theorem C8_hand_priority_witness :
    (update_frame 640 480 defaultZoneParams 3 false c8input c8state0).warning_text
        = "[color=ff0]WARNING: HAND DETECTED IN CUTTING AREA[/color]" ∧
    (update_frame 640 480 defaultZoneParams 3 false c8input c8state0).last_motion_time
        = c8input.now ∧
    (update_frame 640 480 defaultZoneParams 3 false c8input c8state0).prev_frame
        = c8state0.prev_frame := by
  have h := C8_hand_priority 640 480 defaultZoneParams 3 c8input c8state0
    (by decide) (by decide) (by decide) _ rfl
  exact ⟨h.1, h.2.1, h.2.2.1⟩

/-! ### Exact zone coordinates for nonnegative-coordinate configurations -/

theorem area2_trapezoid (x1 x2 x3 x4 yT yB : ℤ) (h1 : x1 ≤ x2) (h2 : x4 ≤ x3)
    (h3 : yB ≤ yT) :
    Quad.area2 ⟨(x1, yT), (x2, yT), (x3, yB), (x4, yB)⟩
      = (yT - yB) * ((x2 - x1) + (x3 - x4)) := by
  unfold Quad.area2
  dsimp only
  rw [abs_of_nonpos (by nlinarith)]
  ring

/-- Under parameters that keep every zone coordinate nonnegative, the Python
`int()` truncations resolve to floor divisions and `compute_zones` is this
explicit pair of trapezoids. -/
theorem compute_zones_eq (fw fh : ℕ) (p : ZoneParams) (cx cy : ℤ)
    (ecx : cx = ((fw / 2 : ℕ) : ℤ) + p.zone_offset_x)
    (ecy : cy = ((fh / 2 : ℕ) : ℤ) + p.zone_offset_y)
    (hx : p.outer_width ≤ 2 * cx) (hy : p.outer_height ≤ 2 * cy)
    (hiw : 0 ≤ p.inner_width) (hw : p.inner_width ≤ p.outer_width)
    (hih : 0 ≤ p.inner_height) (hh : p.inner_height ≤ p.outer_height) :
    compute_zones fw fh p =
      (⟨((2 * cx - p.outer_width) / 2, (2 * cy + p.outer_height) / 2),
        ((2 * cx + p.outer_width) / 2, (2 * cy + p.outer_height) / 2),
        ((4 * cx + p.outer_width) / 4, (2 * cy - p.outer_height) / 2),
        ((4 * cx - p.outer_width) / 4, (2 * cy - p.outer_height) / 2)⟩,
       ⟨((2 * cx - p.inner_width) / 2, (2 * cy + p.inner_height) / 2),
        ((2 * cx + p.inner_width) / 2, (2 * cy + p.inner_height) / 2),
        ((4 * cx + p.inner_width) / 4, (2 * cy - p.inner_height) / 2),
        ((4 * cx - p.inner_width) / 4, (2 * cy - p.inner_height) / 2)⟩) := by
  simp only [compute_zones]
  rw [← ecx, ← ecy]
  rw [pyIntQ_half_sub cx p.outer_width (by omega),
    pyIntQ_half_add cx p.outer_width (by omega),
    pyIntQ_quarter_sub cx p.outer_width (by omega),
    pyIntQ_quarter_add cx p.outer_width (by omega),
    pyIntQ_half_add cy p.outer_height (by omega),
    pyIntQ_half_sub cy p.outer_height (by omega),
    pyIntQ_half_sub cx p.inner_width (by omega),
    pyIntQ_half_add cx p.inner_width (by omega),
    pyIntQ_quarter_sub cx p.inner_width (by omega),
    pyIntQ_quarter_add cx p.inner_width (by omega),
    pyIntQ_half_add cy p.inner_height (by omega),
    pyIntQ_half_sub cy p.inner_height (by omega)]

/-- C6 amended: the claim needs the nesting it implicitly assumed — inner
dimensions strictly smaller than outer — and, for the strict area comparison,
zones lying in nonnegative coordinates (`outer_width ≤ 2·cx`,
`outer_height ≤ 2·cy`, true e.g. of the whole default configuration).  Then
the inner trapezoid's polygon area is strictly smaller than the outer's and
its bounding box lies inside the outer's. -/
theorem C6_inner_smaller_when_nested (fw fh : ℕ) (p : ZoneParams)
    (hiw : 0 < p.inner_width) (hwlt : p.inner_width < p.outer_width)
    (hih : 0 < p.inner_height) (hhlt : p.inner_height < p.outer_height)
    (hx : p.outer_width ≤ 2 * (((fw / 2 : ℕ) : ℤ) + p.zone_offset_x))
    (hy : p.outer_height ≤ 2 * (((fh / 2 : ℕ) : ℤ) + p.zone_offset_y)) :
    (compute_zones fw fh p).2.area2 < (compute_zones fw fh p).1.area2 ∧
    bboxInside (compute_zones fw fh p).2 (compute_zones fw fh p).1 := by
  have hzone := compute_zones_eq fw fh p
    (((fw / 2 : ℕ) : ℤ) + p.zone_offset_x) (((fh / 2 : ℕ) : ℤ) + p.zone_offset_y)
    rfl rfl hx hy (by omega) (by omega) (by omega) (by omega)
  rw [hzone]
  dsimp only
  set cx : ℤ := ((fw / 2 : ℕ) : ℤ) + p.zone_offset_x with ecx
  set cy : ℤ := ((fh / 2 : ℕ) : ℤ) + p.zone_offset_y with ecy
  set ow := p.outer_width
  set oh := p.outer_height
  set iw := p.inner_width
  set ih := p.inner_height
  constructor
  · rw [area2_trapezoid ((2 * cx - iw) / 2) ((2 * cx + iw) / 2) ((4 * cx + iw) / 4)
      ((4 * cx - iw) / 4) ((2 * cy + ih) / 2) ((2 * cy - ih) / 2)
      (by omega) (by omega) (by omega)]
    rw [area2_trapezoid ((2 * cx - ow) / 2) ((2 * cx + ow) / 2) ((4 * cx + ow) / 4)
      ((4 * cx - ow) / 4) ((2 * cy + oh) / 2) ((2 * cy - oh) / 2)
      (by omega) (by omega) (by omega)]
    have hA : (2 * cy + ih) / 2 - (2 * cy - ih) / 2 = ih := by omega
    have hB : (2 * cy + oh) / 2 - (2 * cy - oh) / 2 = oh := by omega
    have hC : (2 * cx + iw) / 2 - (2 * cx - iw) / 2 = iw := by omega
    have hD : (2 * cx + ow) / 2 - (2 * cx - ow) / 2 = ow := by omega
    rw [hA, hB, hC, hD]
    exact mul_lt_mul'' (by omega) (by omega) (by omega) (by omega)
  · simp only [bboxInside, Quad.minX, Quad.maxX, Quad.minY, Quad.maxY]
    refine ⟨?_, ?_, ?_, ?_⟩ <;> omega

theorem C6_inner_smaller_when_nested_witness :
    (compute_zones 640 480 defaultZoneParams).2.area2
        < (compute_zones 640 480 defaultZoneParams).1.area2 ∧
    bboxInside (compute_zones 640 480 defaultZoneParams).2
      (compute_zones 640 480 defaultZoneParams).1 :=
  C6_inner_smaller_when_nested 640 480 defaultZoneParams
    (by decide) (by decide) (by decide) (by decide) (by decide) (by decide)

end FYP
